import Mathlib

/-!
# Verification of `calculate_mcnemar_test` (machine_learning_utils)

The repository ships a single notebook,
`src/notebooks/Statistical Significance Testing for Different Classifiers.ipynb`,
which imports `calculate_mcnemar_test` from
`machine_learning_utils.evaluation.significance_testing` and calls it five
times, recording both the returned tuples and the stdout produced by the
calls.  The module `significance_testing` itself is not under `src/`; only
its caller and the recorded behaviour are.  Accordingly:

* the function is modelled below from the specification (doc comments
  starting with `Modelled from the spec:`), with the external chi-square
  CDF library call represented by a function parameter `cdf`;
* the five recorded invocations (returned tuples and stdout lines) are
  embedded verbatim from the notebook source and used as ground truth
  where they decide a claim.
-/

namespace SignificanceTesting

/-- The shape of the tuple returned by `calculate_mcnemar_test`:
`(statistic, pvalue, p <= 0.05, p <= 0.01, p <= 0.001)`.  Floats are
modelled as rationals. -/
structure McnemarResult where
  statistic : ℚ
  pvalue : ℚ
  sig05 : Bool
  sig01 : Bool
  sig001 : Bool
deriving DecidableEq

/-- Modelled from the spec: the error raised when the three input
sequences are not of equal length (spec section 7, InputShapeError). -/
inductive McnemarError where
  | inputShapeError
deriving DecidableEq

/-- Per-index correctness of a prediction sequence against ground truth
(spec section 4.1 step 1). -/
def correctness {α : Type} [DecidableEq α] (pred gt : List α) : List Bool :=
  List.zipWith (fun x y => decide (x = y)) pred gt

/-- Count of discordant pairs where A is wrong and B is correct
(spec section 4.1 step 2), from the two correctness sequences. -/
def n01 (ca cb : List Bool) : ℕ :=
  (ca.zip cb).countP (fun p => !p.1 && p.2)

/-- Count of discordant pairs where A is correct and B is wrong
(spec section 4.1 step 2), from the two correctness sequences. -/
def n10 (ca cb : List Bool) : ℕ :=
  (ca.zip cb).countP (fun p => p.1 && !p.2)

/-- Modelled from the spec: one-vs-rest binarization; every element is
remapped to the indicator of equality with `target_class` (spec section
4.1, inputs). -/
def binarize {α : Type} [DecidableEq α] (c : α) (l : List α) : List Bool :=
  l.map (fun x => decide (x = c))

/-- Modelled from the spec: steps 3-6 of the algorithm (spec section
4.1), from the two discordant counts.  `cdf` stands for the external
chi-square CDF with one degree of freedom, which lives in a statistics
library and not in this repository. -/
def mcnemarFromCounts (cdf : ℚ → ℚ) (k01 k10 : ℕ) : McnemarResult :=
  let n := k01 + k10
  if n = 0 then ⟨0, 1, false, false, false⟩
  else
    let stat : ℚ :=
      if n < 25 then (|(k01 : ℚ) - (k10 : ℚ)| - 1) ^ 2 / (n : ℚ)
      else ((k01 : ℚ) - (k10 : ℚ)) ^ 2 / (n : ℚ)
    let p : ℚ := 1 - cdf stat
    ⟨stat, p, decide (p ≤ 1 / 20), decide (p ≤ 1 / 100), decide (p ≤ 1 / 1000)⟩

/-- Modelled from the spec: the core of the test on three aligned
sequences (spec section 4.1 steps 1-6). -/
def mcnemarCore {α : Type} [DecidableEq α] (cdf : ℚ → ℚ) (a b gt : List α) : McnemarResult :=
  mcnemarFromCounts cdf (n01 (correctness a gt) (correctness b gt))
    (n10 (correctness a gt) (correctness b gt))

/-- Modelled from the spec: `calculate_mcnemar_test` from
`machine_learning_utils.evaluation.significance_testing`, which is not
under `src/` (the notebook only imports and calls it).  Checks the
length invariant, optionally binarizes one-vs-rest, and runs the core
(spec section 4.1).  The chi-square CDF is the parameter `cdf`. -/
def calculate_mcnemar_test {α : Type} [DecidableEq α] (cdf : ℚ → ℚ)
    (predictions_a predictions_b ground_truth : List α) (target_class : Option α) :
    Except McnemarError McnemarResult :=
  if predictions_a.length = ground_truth.length ∧ predictions_b.length = ground_truth.length then
    match target_class with
    | none => .ok (mcnemarCore cdf predictions_a predictions_b ground_truth)
    | some c =>
        .ok (mcnemarCore cdf (binarize c predictions_a) (binarize c predictions_b)
          (binarize c ground_truth))
  else
    .error .inputShapeError

/-- The discordant counts `(n01, n10)` that a call with the given
arguments works from, after the optional one-vs-rest binarization. -/
def effectiveCounts {α : Type} [DecidableEq α] (a b g : List α) (t : Option α) : ℕ × ℕ :=
  match t with
  | none => (n01 (correctness a g) (correctness b g), n10 (correctness a g) (correctness b g))
  | some c =>
      (n01 (correctness (binarize c a) (binarize c g)) (correctness (binarize c b) (binarize c g)),
       n10 (correctness (binarize c a) (binarize c g)) (correctness (binarize c b) (binarize c g)))

/-! ## Recorded invocations

The notebook records five calls of `calculate_mcnemar_test` (cell 19,
the overall comparison, and cell 20, one one-vs-rest call per class).
The returned tuples below are embedded verbatim from the notebook
outputs, with the printed float reprs read as exact decimals. -/

/-- Recorded return value of cell 19:
`(32.0, 1.2841763866093115e-08, True, True, True)`. -/
def recordedOverall : McnemarResult :=
  ⟨32, 12841763866093115 / 10 ^ 24, true, true, true⟩

/-- Recorded return value for `alt.atheism` in cell 20:
`(19.0, 0.000521612756811516, True, True, True)`. -/
def recordedAtheism : McnemarResult :=
  ⟨19, 521612756811516 / 10 ^ 18, true, true, true⟩

/-- Recorded return value for `comp.graphics` in cell 20:
`(12.0, 2.7862343424643344e-07, True, True, True)`. -/
def recordedGraphics : McnemarResult :=
  ⟨12, 27862343424643344 / 10 ^ 23, true, true, true⟩

/-- Recorded return value for `sci.med` in cell 20:
`(24.0, 2.2027598315502487e-06, True, True, True)`. -/
def recordedSciMed : McnemarResult :=
  ⟨24, 22027598315502487 / 10 ^ 22, true, true, true⟩

/-- Recorded return value for `soc.religion.christian` in cell 20:
`(25.0, 0.16188140552559763, False, False, False)`. -/
def recordedChristian : McnemarResult :=
  ⟨25, 16188140552559763 / 10 ^ 17, false, false, false⟩

/-- All five recorded return values, in notebook order. -/
def mcnemarRecordedResults : List McnemarResult :=
  [recordedOverall, recordedAtheism, recordedGraphics, recordedSciMed, recordedChristian]

/-! ## The exact binomial McNemar variant

The recorded p-values do not follow the chi-square survival function of
the recorded statistics; they match the exact binomial (two-sided)
McNemar variant, the one implemented by `statsmodels` with
`exact=True`: the statistic is `min(n01, n10)` and the p-value is
`min(1, 2 * BinomialCdf(min(n01, n10); n01 + n10, 1/2))`.  The
definitions below state that variant so the match can be proved. -/

/-- Binomial coefficient through the descending factorial, so that the
kernel can evaluate it in linear time. -/
def binom (n k : ℕ) : ℕ :=
  n.descFactorial k / k.factorial

/-- `2 ^ n` times the CDF at `s` of a Binomial(`n`, 1/2) variable:
the number of subsets of size at most `s`. -/
def binomCdfNumerator (n s : ℕ) : ℕ :=
  ((List.range (s + 1)).map (binom n)).sum

/-- Statistic of the exact binomial McNemar variant: the smaller
discordant count. -/
def mcnemarExactStatistic (k01 k10 : ℕ) : ℚ :=
  (min k01 k10 : ℕ)

/-- Two-sided p-value of the exact binomial McNemar variant:
`min(1, 2 * P(Binomial(n, 1/2) <= min(k01, k10)))` with
`n = k01 + k10`. -/
def mcnemarExactPvalue (k01 k10 : ℕ) : ℚ :=
  min 1 (2 * (binomCdfNumerator (k01 + k10) (min k01 k10) : ℚ) / 2 ^ (k01 + k10))

/-! ## Recorded stdout

Cell 20 of the notebook runs, for each of the four class indices,
`print(target)`, then `result = calculate_mcnemar_test(...)`, then
`print(result)`, then `print("*" * 30)` - and its recorded stdout
stream contains, for every iteration, two extra lines between the
target name and the printed result tuple.  Both the full stream and
the lines the caller itself prints are embedded verbatim below. -/

/-- The recorded stdout stream of cell 20, line by line. -/
def cell20Stdout : List String :=
  ["alt.atheism",
   "statistic=19.000, p-value=0.001",
   "Different proportions of errors (reject H0)",
   "(19.0, 0.000521612756811516, True, True, True)",
   "******************************",
   "comp.graphics",
   "statistic=12.000, p-value=0.000",
   "Different proportions of errors (reject H0)",
   "(12.0, 2.7862343424643344e-07, True, True, True)",
   "******************************",
   "sci.med",
   "statistic=24.000, p-value=0.000",
   "Different proportions of errors (reject H0)",
   "(24.0, 2.2027598315502487e-06, True, True, True)",
   "******************************",
   "soc.religion.christian",
   "statistic=25.000, p-value=0.162",
   "Same proportions of errors (fail to reject H0)",
   "(25.0, 0.16188140552559763, False, False, False)",
   "******************************"]

/-- The lines printed by the loop body of cell 20 itself: the target
name (`print(target)`), the repr of the returned tuple
(`print(result)`) and the separator (`print("*" * 30)`), for each of
the four iterations. -/
def cell20CallerPrinted : List String :=
  ["alt.atheism",
   "(19.0, 0.000521612756811516, True, True, True)",
   "******************************",
   "comp.graphics",
   "(12.0, 2.7862343424643344e-07, True, True, True)",
   "******************************",
   "sci.med",
   "(24.0, 2.2027598315502487e-06, True, True, True)",
   "******************************",
   "soc.religion.christian",
   "(25.0, 0.16188140552559763, False, False, False)",
   "******************************"]

/-- The last two recorded stdout lines of cell 19 (the only code in
that cell besides a print of the class-name list is the bare call of
`calculate_mcnemar_test`). -/
def cell19CalleeStdout : List String :=
  ["statistic=32.000, p-value=0.000",
   "Different proportions of errors (reject H0)"]

/-- Rendering of a nonnegative rational with three digits after the
decimal point, rounding half up - the shape produced by the format
string of the summary line for the values at hand. -/
def toFixed3 (q : ℚ) : String :=
  let m : ℕ := (⌊q * 1000 + 1 / 2⌋).toNat
  let frac := m % 1000
  let pad := if frac < 10 then "00" else if frac < 100 then "0" else ""
  toString (m / 1000) ++ "." ++ pad ++ toString frac

/-- The two summary lines that accompany a returned result in the
recorded stdout: the statistic and p-value to three decimal places,
and the decision line chosen by comparing the p-value with 0.05. -/
def summaryLines (r : McnemarResult) : List String :=
  ["statistic=" ++ toFixed3 r.statistic ++ ", p-value=" ++ toFixed3 r.pvalue,
   if r.pvalue ≤ 1 / 20 then "Different proportions of errors (reject H0)"
   else "Same proportions of errors (fail to reject H0)"]

end SignificanceTesting

namespace SignificanceTesting

/-! ## Helper lemmas -/

lemma n01_swap (x : List Bool) : ∀ y, n01 x y = n10 y x := by
  induction x with
  | nil => intro y; simp [n01, n10]
  | cons a xs ih =>
      intro y
      cases y with
      | nil => simp [n01, n10]
      | cons b ys =>
          simp only [n01, n10, List.zip_cons_cons, List.countP_cons] at *
          rw [ih ys]
          rcases a <;> rcases b <;> rfl

lemma n01_self (l : List Bool) : n01 l l = 0 := by
  induction l with
  | nil => rfl
  | cons a xs ih =>
      simp only [n01, List.zip_cons_cons, List.countP_cons] at *
      rw [ih]
      rcases a <;> rfl

lemma n10_self (l : List Bool) : n10 l l = 0 := by
  rw [← n01_swap, n01_self]

lemma mcnemarFromCounts_comm (cdf : ℚ → ℚ) (k01 k10 : ℕ) :
    mcnemarFromCounts cdf k10 k01 = mcnemarFromCounts cdf k01 k10 := by
  simp only [mcnemarFromCounts, Nat.add_comm k10 k01]
  rw [abs_sub_comm ((k10 : ℚ)) ((k01 : ℚ)),
    show ((k10 : ℚ) - (k01 : ℚ)) ^ 2 = ((k01 : ℚ) - (k10 : ℚ)) ^ 2 by ring]

lemma mcnemarCore_comm {α : Type} [DecidableEq α] (cdf : ℚ → ℚ) (a b gt : List α) :
    mcnemarCore cdf b a gt = mcnemarCore cdf a b gt := by
  simp only [mcnemarCore]
  have h2 : n10 (correctness b gt) (correctness a gt)
      = n01 (correctness a gt) (correctness b gt) :=
    (n01_swap (correctness a gt) (correctness b gt)).symm
  rw [n01_swap (correctness b gt) (correctness a gt), h2, mcnemarFromCounts_comm]

lemma calculate_eq_ok {α : Type} [DecidableEq α] (cdf : ℚ → ℚ) (a b g : List α) (t : Option α)
    (hlen : a.length = g.length ∧ b.length = g.length) :
    calculate_mcnemar_test cdf a b g t =
      .ok (mcnemarFromCounts cdf (effectiveCounts a b g t).1 (effectiveCounts a b g t).2) := by
  rw [calculate_mcnemar_test.eq_def, if_pos hlen]
  cases t with
  | none => simp only [mcnemarCore, effectiveCounts]
  | some c => simp only [mcnemarCore, effectiveCounts]

lemma fromCounts_flags (cdf : ℚ → ℚ) (k01 k10 : ℕ) :
    (mcnemarFromCounts cdf k01 k10).sig05
        = decide ((mcnemarFromCounts cdf k01 k10).pvalue ≤ 1 / 20) ∧
      (mcnemarFromCounts cdf k01 k10).sig01
        = decide ((mcnemarFromCounts cdf k01 k10).pvalue ≤ 1 / 100) ∧
      (mcnemarFromCounts cdf k01 k10).sig001
        = decide ((mcnemarFromCounts cdf k01 k10).pvalue ≤ 1 / 1000) ∧
      ((mcnemarFromCounts cdf k01 k10).sig001 = true →
        (mcnemarFromCounts cdf k01 k10).sig01 = true) ∧
      ((mcnemarFromCounts cdf k01 k10).sig01 = true →
        (mcnemarFromCounts cdf k01 k10).sig05 = true) := by
  by_cases h : k01 + k10 = 0
  · simp only [mcnemarFromCounts, if_pos h]
    refine ⟨(decide_eq_false (by norm_num)).symm, (decide_eq_false (by norm_num)).symm,
      (decide_eq_false (by norm_num)).symm, ?_, ?_⟩ <;> simp
  · refine ⟨?_, ?_, ?_, ?_, ?_⟩
    · simp only [mcnemarFromCounts, if_neg h]
    · simp only [mcnemarFromCounts, if_neg h]
    · simp only [mcnemarFromCounts, if_neg h]
    · simp only [mcnemarFromCounts, if_neg h]
      intro hd
      exact decide_eq_true (le_trans (of_decide_eq_true hd) (by norm_num))
    · simp only [mcnemarFromCounts, if_neg h]
      intro hd
      exact decide_eq_true (le_trans (of_decide_eq_true hd) (by norm_num))

lemma fromCounts_bounds (cdf : ℚ → ℚ) (hcdf : ∀ x : ℚ, 0 ≤ cdf x ∧ cdf x ≤ 1) (k01 k10 : ℕ) :
    0 ≤ (mcnemarFromCounts cdf k01 k10).statistic ∧
      0 ≤ (mcnemarFromCounts cdf k01 k10).pvalue ∧
      (mcnemarFromCounts cdf k01 k10).pvalue ≤ 1 := by
  by_cases h : k01 + k10 = 0
  · simp only [mcnemarFromCounts, if_pos h]
    norm_num
  · simp only [mcnemarFromCounts, if_neg h]
    refine ⟨?_, ?_, ?_⟩
    · split <;> positivity
    · have := (hcdf (if k01 + k10 < 25 then (|(k01 : ℚ) - (k10 : ℚ)| - 1) ^ 2 / ((k01 + k10 : ℕ) : ℚ)
        else ((k01 : ℚ) - (k10 : ℚ)) ^ 2 / ((k01 + k10 : ℕ) : ℚ))).2
      linarith
    · have := (hcdf (if k01 + k10 < 25 then (|(k01 : ℚ) - (k10 : ℚ)| - 1) ^ 2 / ((k01 + k10 : ℕ) : ℚ)
        else ((k01 : ℚ) - (k10 : ℚ)) ^ 2 / ((k01 + k10 : ℕ) : ℚ))).1
      linarith

end SignificanceTesting

namespace SignificanceTesting

/-! ## Evaluation lemmas for the recorded data -/

lemma binomCdfNumerator_128_32 :
    binomCdfNumerator 128 32 = 2184912901896973526753699999573 := by decide

lemma exactPvalue_overall :
    |mcnemarExactPvalue 32 96 - recordedOverall.pvalue| < recordedOverall.pvalue / 10 ^ 15 := by
  simp only [mcnemarExactPvalue, recordedOverall]
  rw [show (32 + 96 : ℕ) = 128 from rfl, show min 32 96 = 32 from rfl, binomCdfNumerator_128_32,
    min_eq_right (by norm_num : 2 * ((2184912901896973526753699999573 : ℕ) : ℚ) / 2 ^ 128 ≤ 1),
    abs_sub_lt_iff]
  constructor <;> norm_num

lemma exactStatistic_overall : mcnemarExactStatistic 32 96 = recordedOverall.statistic := by
  norm_num [mcnemarExactStatistic, recordedOverall]

lemma exactPvalue_atheism :
    |mcnemarExactPvalue 19 48 - recordedAtheism.pvalue| < recordedAtheism.pvalue / 10 ^ 15 := by
  have hL : binomCdfNumerator 67 19 = 38488228121936552 := by decide
  simp only [mcnemarExactPvalue, recordedAtheism]
  rw [show (19 + 48 : ℕ) = 67 from rfl, show min 19 48 = 19 from rfl, hL,
    min_eq_right (by norm_num : 2 * ((38488228121936552 : ℕ) : ℚ) / 2 ^ 67 ≤ 1),
    abs_sub_lt_iff]
  constructor <;> norm_num

lemma exactStatistic_atheism : mcnemarExactStatistic 19 48 = recordedAtheism.statistic := by
  norm_num [mcnemarExactStatistic, recordedAtheism]

lemma exactPvalue_graphics :
    |mcnemarExactPvalue 12 53 - recordedGraphics.pvalue| < recordedGraphics.pvalue / 10 ^ 15 := by
  have hL : binomCdfNumerator 65 12 = 5139695184482 := by decide
  simp only [mcnemarExactPvalue, recordedGraphics]
  rw [show (12 + 53 : ℕ) = 65 from rfl, show min 12 53 = 12 from rfl, hL,
    min_eq_right (by norm_num : 2 * ((5139695184482 : ℕ) : ℚ) / 2 ^ 65 ≤ 1),
    abs_sub_lt_iff]
  constructor <;> norm_num

lemma exactStatistic_graphics : mcnemarExactStatistic 12 53 = recordedGraphics.statistic := by
  norm_num [mcnemarExactStatistic, recordedGraphics]

lemma exactPvalue_scimed :
    |mcnemarExactPvalue 24 70 - recordedSciMed.pvalue| < recordedSciMed.pvalue / 10 ^ 15 := by
  have hL : binomCdfNumerator 94 24 = 21815076739244584166903 := by decide
  simp only [mcnemarExactPvalue, recordedSciMed]
  rw [show (24 + 70 : ℕ) = 94 from rfl, show min 24 70 = 24 from rfl, hL,
    min_eq_right (by norm_num : 2 * ((21815076739244584166903 : ℕ) : ℚ) / 2 ^ 94 ≤ 1),
    abs_sub_lt_iff]
  constructor <;> norm_num

lemma exactStatistic_scimed : mcnemarExactStatistic 24 70 = recordedSciMed.statistic := by
  norm_num [mcnemarExactStatistic, recordedSciMed]

lemma exactPvalue_christian :
    |mcnemarExactPvalue 25 37 - recordedChristian.pvalue| < recordedChristian.pvalue / 10 ^ 15 := by
  have hL : binomCdfNumerator 62 25 = 373273107252886423 := by decide
  simp only [mcnemarExactPvalue, recordedChristian]
  rw [show (25 + 37 : ℕ) = 62 from rfl, show min 25 37 = 25 from rfl, hL,
    min_eq_right (by norm_num : 2 * ((373273107252886423 : ℕ) : ℚ) / 2 ^ 62 ≤ 1),
    abs_sub_lt_iff]
  constructor <;> norm_num

lemma exactStatistic_christian : mcnemarExactStatistic 25 37 = recordedChristian.statistic := by
  norm_num [mcnemarExactStatistic, recordedChristian]

end SignificanceTesting

namespace SignificanceTesting

lemma toFixed3_19 : toFixed3 (19 : ℚ) = "19.000" := by
  have h : ⌊(19 : ℚ) * 1000 + 1 / 2⌋ = (19000 : ℤ) := by
    rw [Int.floor_eq_iff]
    norm_num
  simp only [toFixed3, h]
  rfl

lemma toFixed3_32 : toFixed3 (32 : ℚ) = "32.000" := by
  have h : ⌊(32 : ℚ) * 1000 + 1 / 2⌋ = (32000 : ℤ) := by
    rw [Int.floor_eq_iff]
    norm_num
  simp only [toFixed3, h]
  rfl

lemma toFixed3_12 : toFixed3 (12 : ℚ) = "12.000" := by
  have h : ⌊(12 : ℚ) * 1000 + 1 / 2⌋ = (12000 : ℤ) := by
    rw [Int.floor_eq_iff]
    norm_num
  simp only [toFixed3, h]
  rfl

lemma toFixed3_24 : toFixed3 (24 : ℚ) = "24.000" := by
  have h : ⌊(24 : ℚ) * 1000 + 1 / 2⌋ = (24000 : ℤ) := by
    rw [Int.floor_eq_iff]
    norm_num
  simp only [toFixed3, h]
  rfl

lemma toFixed3_25 : toFixed3 (25 : ℚ) = "25.000" := by
  have h : ⌊(25 : ℚ) * 1000 + 1 / 2⌋ = (25000 : ℤ) := by
    rw [Int.floor_eq_iff]
    norm_num
  simp only [toFixed3, h]
  rfl

lemma toFixed3_p_overall : toFixed3 (12841763866093115 / 10 ^ 24 : ℚ) = "0.000" := by
  have h : ⌊(12841763866093115 / 10 ^ 24 : ℚ) * 1000 + 1 / 2⌋ = (0 : ℤ) := by
    rw [Int.floor_eq_iff]
    norm_num
  simp only [toFixed3, h]
  rfl

lemma toFixed3_p_atheism : toFixed3 (521612756811516 / 10 ^ 18 : ℚ) = "0.001" := by
  have h : ⌊(521612756811516 / 10 ^ 18 : ℚ) * 1000 + 1 / 2⌋ = (1 : ℤ) := by
    rw [Int.floor_eq_iff]
    norm_num
  simp only [toFixed3, h]
  rfl

lemma toFixed3_p_graphics : toFixed3 (27862343424643344 / 10 ^ 23 : ℚ) = "0.000" := by
  have h : ⌊(27862343424643344 / 10 ^ 23 : ℚ) * 1000 + 1 / 2⌋ = (0 : ℤ) := by
    rw [Int.floor_eq_iff]
    norm_num
  simp only [toFixed3, h]
  rfl

lemma toFixed3_p_scimed : toFixed3 (22027598315502487 / 10 ^ 22 : ℚ) = "0.000" := by
  have h : ⌊(22027598315502487 / 10 ^ 22 : ℚ) * 1000 + 1 / 2⌋ = (0 : ℤ) := by
    rw [Int.floor_eq_iff]
    norm_num
  simp only [toFixed3, h]
  rfl

lemma toFixed3_p_christian : toFixed3 (16188140552559763 / 10 ^ 17 : ℚ) = "0.162" := by
  have h : ⌊(16188140552559763 / 10 ^ 17 : ℚ) * 1000 + 1 / 2⌋ = (162 : ℤ) := by
    rw [Int.floor_eq_iff]
    norm_num
  simp only [toFixed3, h]
  rfl

lemma summaryLines_overall :
    summaryLines recordedOverall =
      ["statistic=32.000, p-value=0.000", "Different proportions of errors (reject H0)"] := by
  simp only [summaryLines, recordedOverall, toFixed3_32, toFixed3_p_overall]
  rw [if_pos (by norm_num : (12841763866093115 / 10 ^ 24 : ℚ) ≤ 1 / 20)]
  rfl

lemma summaryLines_atheism :
    summaryLines recordedAtheism =
      ["statistic=19.000, p-value=0.001", "Different proportions of errors (reject H0)"] := by
  simp only [summaryLines, recordedAtheism, toFixed3_19, toFixed3_p_atheism]
  rw [if_pos (by norm_num : (521612756811516 / 10 ^ 18 : ℚ) ≤ 1 / 20)]
  rfl

lemma summaryLines_graphics :
    summaryLines recordedGraphics =
      ["statistic=12.000, p-value=0.000", "Different proportions of errors (reject H0)"] := by
  simp only [summaryLines, recordedGraphics, toFixed3_12, toFixed3_p_graphics]
  rw [if_pos (by norm_num : (27862343424643344 / 10 ^ 23 : ℚ) ≤ 1 / 20)]
  rfl

lemma summaryLines_scimed :
    summaryLines recordedSciMed =
      ["statistic=24.000, p-value=0.000", "Different proportions of errors (reject H0)"] := by
  simp only [summaryLines, recordedSciMed, toFixed3_24, toFixed3_p_scimed]
  rw [if_pos (by norm_num : (22027598315502487 / 10 ^ 22 : ℚ) ≤ 1 / 20)]
  rfl

lemma summaryLines_christian :
    summaryLines recordedChristian =
      ["statistic=25.000, p-value=0.162", "Same proportions of errors (fail to reject H0)"] := by
  simp only [summaryLines, recordedChristian, toFixed3_25, toFixed3_p_christian]
  rw [if_neg (by norm_num : ¬(16188140552559763 / 10 ^ 17 : ℚ) ≤ 1 / 20)]
  rfl

end SignificanceTesting

namespace SignificanceTesting

/-! ## Claims -/

/-- C1 (counterexample): the recorded invocations are inconsistent with
`p_value = 1 - chi_square_cdf(statistic, df=1)` for ANY monotone CDF,
chi-square included: the recorded statistic 19 comes with p-value
0.000521612756811516 while the larger recorded statistic 25 comes with
the much larger p-value 0.16188140552559763, whereas `1 - cdf` must be
antitone in the statistic. -/
theorem mcnemar_pvalue_not_chisquare_of_statistic :
    ¬∃ cdf : ℝ → ℝ, Monotone cdf ∧
      ∀ r ∈ mcnemarRecordedResults, (r.pvalue : ℝ) = 1 - cdf (r.statistic : ℝ) := by
  rintro ⟨cdf, hmono, hall⟩
  have h19 := hall recordedAtheism (by simp [mcnemarRecordedResults])
  have h25 := hall recordedChristian (by simp [mcnemarRecordedResults])
  simp only [recordedAtheism, recordedChristian] at h19 h25
  have hmle : cdf ((19 : ℚ) : ℝ) ≤ cdf ((25 : ℚ) : ℝ) := hmono (by norm_num)
  push_cast at h19 h25 hmle
  have hlt : (521612756811516 : ℝ) / 10 ^ 18 < (16188140552559763 : ℝ) / 10 ^ 17 := by norm_num
  linarith

/-- C1 (amended): every recorded invocation matches the exact binomial
(two-sided) McNemar variant: there are discordant counts (32,96),
(19,48), (12,53), (24,70) and (25,37) whose exact-binomial statistic
`min(n01, n10)` equals the recorded statistic exactly and whose
exact-binomial p-value `min(1, 2 * BinomialCdf(min; n, 1/2))` equals
the recorded p-value to within a relative error of `10 ^ (-15)`
(double-precision accuracy). -/
theorem mcnemar_recorded_match_exact_binomial :
    (mcnemarExactStatistic 32 96 = recordedOverall.statistic ∧
      |mcnemarExactPvalue 32 96 - recordedOverall.pvalue| < recordedOverall.pvalue / 10 ^ 15) ∧
    (mcnemarExactStatistic 19 48 = recordedAtheism.statistic ∧
      |mcnemarExactPvalue 19 48 - recordedAtheism.pvalue| < recordedAtheism.pvalue / 10 ^ 15) ∧
    (mcnemarExactStatistic 12 53 = recordedGraphics.statistic ∧
      |mcnemarExactPvalue 12 53 - recordedGraphics.pvalue| < recordedGraphics.pvalue / 10 ^ 15) ∧
    (mcnemarExactStatistic 24 70 = recordedSciMed.statistic ∧
      |mcnemarExactPvalue 24 70 - recordedSciMed.pvalue| < recordedSciMed.pvalue / 10 ^ 15) ∧
    (mcnemarExactStatistic 25 37 = recordedChristian.statistic ∧
      |mcnemarExactPvalue 25 37 - recordedChristian.pvalue| < recordedChristian.pvalue / 10 ^ 15) :=
  ⟨⟨exactStatistic_overall, exactPvalue_overall⟩, ⟨exactStatistic_atheism, exactPvalue_atheism⟩,
    ⟨exactStatistic_graphics, exactPvalue_graphics⟩, ⟨exactStatistic_scimed, exactPvalue_scimed⟩,
    ⟨exactStatistic_christian, exactPvalue_christian⟩⟩

/-- C2: on every valid equal-length input with at least one discordant
pair, the returned statistic is `(|n01 - n10| - 1)^2 / n` when `n < 25`
and `(n01 - n10)^2 / n` otherwise, where `(n01, n10)` are the
discordant counts after the optional binarization and `n = n01 + n10`
(spec-modelled: the implementation is not under src). -/
theorem mcnemar_statistic_formula {α : Type} [DecidableEq α] (cdf : ℚ → ℚ)
    (predictions_a predictions_b ground_truth : List α) (target_class : Option α)
    (hlen : predictions_a.length = ground_truth.length ∧
      predictions_b.length = ground_truth.length)
    (hn : (effectiveCounts predictions_a predictions_b ground_truth target_class).1 +
      (effectiveCounts predictions_a predictions_b ground_truth target_class).2 ≠ 0) :
    ∃ r, calculate_mcnemar_test cdf predictions_a predictions_b ground_truth target_class =
        .ok r ∧
      r.statistic =
        (if (effectiveCounts predictions_a predictions_b ground_truth target_class).1 +
            (effectiveCounts predictions_a predictions_b ground_truth target_class).2 < 25 then
          (|((effectiveCounts predictions_a predictions_b ground_truth target_class).1 : ℚ) -
              ((effectiveCounts predictions_a predictions_b ground_truth target_class).2 : ℚ)| -
            1) ^ 2 /
            (((effectiveCounts predictions_a predictions_b ground_truth target_class).1 +
              (effectiveCounts predictions_a predictions_b ground_truth target_class).2 : ℕ) : ℚ)
        else
          (((effectiveCounts predictions_a predictions_b ground_truth target_class).1 : ℚ) -
              ((effectiveCounts predictions_a predictions_b ground_truth target_class).2 : ℚ)) ^
            2 /
            (((effectiveCounts predictions_a predictions_b ground_truth target_class).1 +
              (effectiveCounts predictions_a predictions_b ground_truth target_class).2 : ℕ) :
              ℚ)) := by
  refine ⟨_, calculate_eq_ok cdf _ _ _ _ hlen, ?_⟩
  simp only [mcnemarFromCounts, if_neg hn]

/-- C2 (witness): for `ground_truth = [0,0,0,0]`,
`predictions_a = [0,0,0,0]` and `predictions_b = [1,1,1,1]` the counts
are `n01 = 0`, `n10 = 4`, the small-sample branch applies, and the
returned statistic is `9/4 = 2.25`. -/
theorem mcnemar_statistic_formula_witness :
    (([0, 0, 0, 0] : List ℕ).length = ([0, 0, 0, 0] : List ℕ).length ∧
      ([1, 1, 1, 1] : List ℕ).length = ([0, 0, 0, 0] : List ℕ).length) ∧
    ((effectiveCounts [0, 0, 0, 0] [1, 1, 1, 1] [0, 0, 0, 0] (none : Option ℕ)).1 +
      (effectiveCounts [0, 0, 0, 0] [1, 1, 1, 1] [0, 0, 0, 0] (none : Option ℕ)).2 ≠ 0) ∧
    ∃ r, calculate_mcnemar_test (fun _ => (0 : ℚ)) [0, 0, 0, 0] [1, 1, 1, 1] [0, 0, 0, 0]
        (none : Option ℕ) = .ok r ∧ r.statistic = 9 / 4 := by
  refine ⟨⟨rfl, rfl⟩, by decide, ?_⟩
  obtain ⟨r, h1, h2⟩ := mcnemar_statistic_formula (fun _ => (0 : ℚ)) [0, 0, 0, 0] [1, 1, 1, 1]
    [0, 0, 0, 0] none ⟨rfl, rfl⟩ (by decide)
  have hec : effectiveCounts [0, 0, 0, 0] [1, 1, 1, 1] [0, 0, 0, 0] (none : Option ℕ) = (0, 4) :=
    by decide
  rw [hec] at h2
  refine ⟨r, h1, ?_⟩
  rw [h2]
  norm_num

/-- C3: with zero discordant pairs after the optional binarization, and
in particular whenever the two prediction sequences are equal, the call
does not fail and returns statistic 0, p-value 1 and all three flags
false (spec-modelled: the implementation is not under src). -/
theorem mcnemar_degenerate {α : Type} [DecidableEq α] (cdf : ℚ → ℚ)
    (predictions_a predictions_b ground_truth : List α) (target_class : Option α)
    (hlen : predictions_a.length = ground_truth.length ∧
      predictions_b.length = ground_truth.length)
    (hz : effectiveCounts predictions_a predictions_b ground_truth target_class = (0, 0) ∨
      predictions_a = predictions_b) :
    calculate_mcnemar_test cdf predictions_a predictions_b ground_truth target_class =
      .ok ⟨0, 1, false, false, false⟩ := by
  have hc : effectiveCounts predictions_a predictions_b ground_truth target_class = (0, 0) := by
    rcases hz with hz | heq
    · exact hz
    · subst heq
      cases target_class with
      | none => simp only [effectiveCounts]; rw [n01_self, n10_self]
      | some c => simp only [effectiveCounts]; rw [n01_self, n10_self]
  rw [calculate_eq_ok cdf _ _ _ _ hlen, hc]
  rfl

/-- C3 (witness): equal prediction lists of length two against a ground
truth they partly miss give the degenerate result. -/
theorem mcnemar_degenerate_witness :
    (([1, 2] : List ℕ).length = ([1, 3] : List ℕ).length ∧
      ([1, 2] : List ℕ).length = ([1, 3] : List ℕ).length) ∧
    (effectiveCounts [1, 2] [1, 2] [1, 3] (none : Option ℕ) = (0, 0) ∨
      ([1, 2] : List ℕ) = [1, 2]) ∧
    calculate_mcnemar_test (fun _ => (0 : ℚ)) [1, 2] [1, 2] [1, 3] (none : Option ℕ) =
      .ok ⟨0, 1, false, false, false⟩ :=
  ⟨⟨rfl, rfl⟩, Or.inr rfl,
    mcnemar_degenerate (fun _ => 0) [1, 2] [1, 2] [1, 3] none ⟨rfl, rfl⟩ (Or.inr rfl)⟩

/-- C4: on every valid equal-length input, the three booleans of the
result equal `p_value <= 0.05`, `p_value <= 0.01` and
`p_value <= 0.001` for the p-value of the same result, and they are
monotone (spec-modelled: the implementation is not under src). -/
theorem mcnemar_flags_thresholds {α : Type} [DecidableEq α] (cdf : ℚ → ℚ)
    (predictions_a predictions_b ground_truth : List α) (target_class : Option α)
    (hlen : predictions_a.length = ground_truth.length ∧
      predictions_b.length = ground_truth.length) :
    ∃ r, calculate_mcnemar_test cdf predictions_a predictions_b ground_truth target_class =
        .ok r ∧
      r.sig05 = decide (r.pvalue ≤ 1 / 20) ∧ r.sig01 = decide (r.pvalue ≤ 1 / 100) ∧
      r.sig001 = decide (r.pvalue ≤ 1 / 1000) ∧
      (r.sig001 = true → r.sig01 = true) ∧ (r.sig01 = true → r.sig05 = true) :=
  ⟨_, calculate_eq_ok cdf _ _ _ _ hlen, fromCounts_flags cdf _ _⟩

/-- C4 (witness): the flag contract evaluated on a one-element input. -/
theorem mcnemar_flags_thresholds_witness :
    (([0] : List ℕ).length = ([0] : List ℕ).length ∧
      ([1] : List ℕ).length = ([0] : List ℕ).length) ∧
    ∃ r, calculate_mcnemar_test (fun _ => (0 : ℚ)) [0] [1] [0] (none : Option ℕ) = .ok r ∧
      r.sig05 = decide (r.pvalue ≤ 1 / 20) ∧ r.sig01 = decide (r.pvalue ≤ 1 / 100) ∧
      r.sig001 = decide (r.pvalue ≤ 1 / 1000) ∧
      (r.sig001 = true → r.sig01 = true) ∧ (r.sig01 = true → r.sig05 = true) :=
  ⟨⟨rfl, rfl⟩, mcnemar_flags_thresholds (fun _ => 0) [0] [1] [0] none ⟨rfl, rfl⟩⟩

/-- C5: on every valid equal-length input, and for any `cdf` that is a
genuine CDF (values in [0,1]), the result satisfies `statistic >= 0`
and `0 <= p_value <= 1` (spec-modelled: the implementation is not
under src). -/
theorem mcnemar_result_bounds {α : Type} [DecidableEq α] (cdf : ℚ → ℚ)
    (predictions_a predictions_b ground_truth : List α) (target_class : Option α)
    (hcdf : ∀ x : ℚ, 0 ≤ cdf x ∧ cdf x ≤ 1)
    (hlen : predictions_a.length = ground_truth.length ∧
      predictions_b.length = ground_truth.length) :
    ∃ r, calculate_mcnemar_test cdf predictions_a predictions_b ground_truth target_class =
        .ok r ∧
      0 ≤ r.statistic ∧ 0 ≤ r.pvalue ∧ r.pvalue ≤ 1 :=
  ⟨_, calculate_eq_ok cdf _ _ _ _ hlen, fromCounts_bounds cdf hcdf _ _⟩

/-- C5 (witness): the bounds evaluated on a one-element input with the
constant-zero CDF. -/
theorem mcnemar_result_bounds_witness :
    (∀ x : ℚ, 0 ≤ (fun _ => (0 : ℚ)) x ∧ (fun _ => (0 : ℚ)) x ≤ 1) ∧
    (([0] : List ℕ).length = ([0] : List ℕ).length ∧
      ([1] : List ℕ).length = ([0] : List ℕ).length) ∧
    ∃ r, calculate_mcnemar_test (fun _ => (0 : ℚ)) [0] [1] [0] (none : Option ℕ) = .ok r ∧
      0 ≤ r.statistic ∧ 0 ≤ r.pvalue ∧ r.pvalue ≤ 1 :=
  ⟨fun x => ⟨le_refl 0, by norm_num⟩, ⟨rfl, rfl⟩,
    mcnemar_result_bounds (fun _ => 0) [0] [1] [0] none
      (fun x => ⟨le_refl 0, by norm_num⟩) ⟨rfl, rfl⟩⟩

/-- C6: swapping the two prediction sequences, with ground truth and
target class fixed, yields the same outcome - in particular the same
statistic and the same p-value (spec-modelled: the implementation is
not under src). -/
theorem mcnemar_swap_symmetric {α : Type} [DecidableEq α] (cdf : ℚ → ℚ)
    (predictions_a predictions_b ground_truth : List α) (target_class : Option α) :
    calculate_mcnemar_test cdf predictions_b predictions_a ground_truth target_class =
      calculate_mcnemar_test cdf predictions_a predictions_b ground_truth target_class := by
  by_cases h : predictions_a.length = ground_truth.length ∧
      predictions_b.length = ground_truth.length
  · rw [calculate_mcnemar_test.eq_def, calculate_mcnemar_test.eq_def, if_pos h,
      if_pos ⟨h.2, h.1⟩]
    cases target_class with
    | none => simp only [mcnemarCore_comm]
    | some c => simp only [mcnemarCore_comm]
  · rw [calculate_mcnemar_test.eq_def, calculate_mcnemar_test.eq_def, if_neg h,
      if_neg (fun hc => h ⟨hc.2, hc.1⟩)]

/-- C7: calling with `target_class = some c` returns the same result as
calling without a target class on the three sequences binarized
element-wise to the indicator of equality with `c` (spec-modelled: the
implementation is not under src). -/
theorem mcnemar_target_class_binarizes {α : Type} [DecidableEq α] (cdf : ℚ → ℚ)
    (predictions_a predictions_b ground_truth : List α) (c : α) :
    calculate_mcnemar_test cdf predictions_a predictions_b ground_truth (some c) =
      calculate_mcnemar_test cdf (binarize c predictions_a) (binarize c predictions_b)
        (binarize c ground_truth) none := by
  rw [calculate_mcnemar_test.eq_def, calculate_mcnemar_test.eq_def]
  simp only [binarize, List.length_map]

/-- C8: whenever the three input sequences are not all of equal length,
the call fails with the length-mismatch error instead of returning a
result (spec-modelled: the implementation is not under src). -/
theorem mcnemar_length_mismatch {α : Type} [DecidableEq α] (cdf : ℚ → ℚ)
    (predictions_a predictions_b ground_truth : List α) (target_class : Option α)
    (h : ¬(predictions_a.length = ground_truth.length ∧
      predictions_b.length = ground_truth.length)) :
    calculate_mcnemar_test cdf predictions_a predictions_b ground_truth target_class =
      .error .inputShapeError := by
  rw [calculate_mcnemar_test.eq_def, if_neg h]

/-- C8 (witness): a one-element first sequence against empty second and
third sequences fails with the length-mismatch error. -/
theorem mcnemar_length_mismatch_witness :
    ¬(([0] : List ℕ).length = ([] : List ℕ).length ∧
      ([] : List ℕ).length = ([] : List ℕ).length) ∧
    calculate_mcnemar_test (fun _ => (0 : ℚ)) [0] [] [] (none : Option ℕ) =
      .error .inputShapeError :=
  ⟨by decide, mcnemar_length_mismatch (fun _ => 0) [0] [] [] none (by decide)⟩

/-- C9 (counterexample): the recorded stdout of cell 20 contains the
line `statistic=19.000, p-value=0.001`, which none of the three print
statements of the calling loop produces - it was printed during the
call of `calculate_mcnemar_test`, so the function is not free of
output formatting. -/
theorem mcnemar_stdout_not_from_caller :
    "statistic=19.000, p-value=0.001" ∈ cell20Stdout ∧
    "statistic=19.000, p-value=0.001" ∉ cell20CallerPrinted := by
  constructor
  · decide
  · decide

/-- C9 (amended): the function returns its entire result as the return
value but additionally prints a two-line summary: the statistic and
p-value formatted to three decimal places, and the reject or
fail-to-reject decision chosen by comparing the p-value with 0.05.
Each recorded stdout stream is exactly the caller prints interleaved
with these two summary lines computed from the recorded results. -/
theorem mcnemar_prints_summary_lines :
    cell19CalleeStdout = summaryLines recordedOverall ∧
    cell20Stdout =
      ["alt.atheism"] ++ summaryLines recordedAtheism ++
        ["(19.0, 0.000521612756811516, True, True, True)", "******************************"] ++
      ["comp.graphics"] ++ summaryLines recordedGraphics ++
        ["(12.0, 2.7862343424643344e-07, True, True, True)", "******************************"] ++
      ["sci.med"] ++ summaryLines recordedSciMed ++
        ["(24.0, 2.2027598315502487e-06, True, True, True)", "******************************"] ++
      ["soc.religion.christian"] ++ summaryLines recordedChristian ++
        ["(25.0, 0.16188140552559763, False, False, False)", "******************************"] := by
  rw [summaryLines_overall, summaryLines_atheism, summaryLines_graphics, summaryLines_scimed,
    summaryLines_christian]
  exact ⟨rfl, rfl⟩

/-- C10 (counterexample): under the spec-modelled formula the statistic
is not always a whole number: on `ground_truth = [0,0,0,0]`,
`predictions_a = [0,0,0,0]`, `predictions_b = [1,1,1,1]` the returned
statistic is `9/4`, which is not an integer. -/
theorem mcnemar_statistic_not_integer_on_small_input :
    calculate_mcnemar_test (fun _ => (0 : ℚ)) [0, 0, 0, 0] [1, 1, 1, 1] ([0, 0, 0, 0] : List ℕ)
        none = .ok ⟨9 / 4, 1, false, false, false⟩ ∧
    ¬∃ k : ℤ, ((9 : ℚ) / 4) = (k : ℚ) := by
  constructor
  · have h0 : calculate_mcnemar_test (fun _ => (0 : ℚ)) [0, 0, 0, 0] [1, 1, 1, 1]
        ([0, 0, 0, 0] : List ℕ) none = .ok (mcnemarFromCounts (fun _ => 0) 0 4) := rfl
    rw [h0]
    simp only [mcnemarFromCounts]
    norm_num [McnemarResult.mk.injEq, decide_eq_false_iff_not]
  · rintro ⟨k, hk⟩
    rw [div_eq_iff (by norm_num : (4 : ℚ) ≠ 0)] at hk
    have h9 : (9 : ℤ) = k * 4 := by exact_mod_cast hk
    omega

/-- C10 (amended): every recorded invocation returns a whole-number
statistic - the recorded statistics are 32, 19, 12, 24 and 25, each a
rational with denominator one. -/
theorem mcnemar_recorded_statistics_are_integers :
    mcnemarRecordedResults.map McnemarResult.statistic = [32, 19, 12, 24, 25] ∧
    mcnemarRecordedResults.all (fun r => r.statistic.den == 1) = true := by
  constructor
  · simp [mcnemarRecordedResults, recordedOverall, recordedAtheism, recordedGraphics,
      recordedSciMed, recordedChristian]
  · decide

end SignificanceTesting
